import Mathlib

/-!
Verification of the "Emergency Home Services" booking backend
(`src/main.py`, `src/schemas.py`) against its specification.

The development shallowly embeds the request handlers of `main.py` over an
explicit in-memory model of the MongoDB document store.  Machine-level
pieces are embedded faithfully:

* `hash_password` is `hashlib.sha256(pw.encode("utf-8")).hexdigest()`;
  SHA-256 is implemented below over `Nat` words reduced mod `2^32`.
* BSON `ObjectId(s)` construction from a string succeeds exactly on
  24-character hexadecimal strings; it is embedded as `parseObjectId`.
* `datetime.fromisoformat(s).date()` is embedded as `parseIsoDate`
  restricted to the date-only ISO form `YYYY-MM-DD` (the endpoint
  documents `service_date` as a date string).

The repository's `database` module (imported by `main.py` as
`from database import db, create_document, get_documents`) is not part of
the sources; its operations are modelled from the specification where so
noted.
-/

/-! ### SHA-256 over byte lists (embedding of `hashlib.sha256(...).hexdigest()`) -/

/-- UTF-8 encoding of a single code point, as a list of byte values. -/
def utf8EncodeChar (c : Char) : List Nat :=
  let n := c.toNat
  if n < 0x80 then [n]
  else if n < 0x800 then
    [0xC0 ||| (n >>> 6), 0x80 ||| (n &&& 0x3F)]
  else if n < 0x10000 then
    [0xE0 ||| (n >>> 12), 0x80 ||| ((n >>> 6) &&& 0x3F), 0x80 ||| (n &&& 0x3F)]
  else
    [0xF0 ||| (n >>> 18), 0x80 ||| ((n >>> 12) &&& 0x3F),
     0x80 ||| ((n >>> 6) &&& 0x3F), 0x80 ||| (n &&& 0x3F)]

/-- UTF-8 bytes of a string (embedding of Python `s.encode("utf-8")`). -/
def utf8Bytes (s : String) : List Nat :=
  s.data.flatMap utf8EncodeChar

/-- Right rotation of a 32-bit word. -/
def rotr32 (n x : Nat) : Nat :=
  ((x >>> n) ||| (x <<< (32 - n))) % 4294967296

/-- Bitwise complement within 32 bits. -/
def not32 (x : Nat) : Nat := Nat.xor x 4294967295

/-- The SHA-256 round constants (FIPS 180-4), written in decimal. -/
def sha256K : List Nat :=
  [1116352408, 1899447441, 3049323471, 3921009573, 961987163, 1508970993,
   2453635748, 2870763221, 3624381080, 310598401, 607225278, 1426881987,
   1925078388, 2162078206, 2614888103, 3248222580, 3835390401, 4022224774,
   264347078, 604807628, 770255983, 1249150122, 1555081692, 1996064986,
   2554220882, 2821834349, 2952996808, 3210313671, 3336571891, 3584528711,
   113926993, 338241895, 666307205, 773529912, 1294757372, 1396182291,
   1695183700, 1986661051, 2177026350, 2456956037, 2730485921, 2820302411,
   3259730800, 3345764771, 3516065817, 3600352804, 4094571909, 275423344,
   430227734, 506948616, 659060556, 883997877, 958139571, 1322822218,
   1537002063, 1747873779, 1955562222, 2024104815, 2227730452, 2361852424,
   2428436474, 2756734187, 3204031479, 3329325298]

/-- The eight working variables of the SHA-256 compression function. -/
structure Sha256State where
  a : Nat
  b : Nat
  c : Nat
  d : Nat
  e : Nat
  f : Nat
  g : Nat
  h : Nat
deriving DecidableEq

/-- The SHA-256 initial hash value (FIPS 180-4), written in decimal. -/
def sha256Init : Sha256State :=
  ⟨1779033703, 3144134277, 1013904242, 2773480762,
   1359893119, 2600822924, 528734635, 1541459225⟩

/-- Big-endian byte rendering of a value, `n` bytes wide. -/
def beBytes (n v : Nat) : List Nat :=
  (List.range n).map (fun i => (v >>> (8 * (n - 1 - i))) &&& 255)

/-- SHA-256 message padding: `0x80`, zeros, and the 64-bit big-endian bit length. -/
def sha256Pad (msg : List Nat) : List Nat :=
  let len := msg.length
  let zeros := (55 + 64 - len % 64) % 64
  msg ++ [0x80] ++ List.replicate zeros 0 ++ beBytes 8 (8 * len)

/-- Split a byte list into 64-byte blocks (fuel-indexed for structural recursion). -/
def chunks64 : Nat → List Nat → List (List Nat)
  | 0, _ => []
  | _, [] => []
  | fuel + 1, l => l.take 64 :: chunks64 fuel (l.drop 64)

/-- Assemble consecutive 4-byte groups into big-endian 32-bit words. -/
def bytesToWords : List Nat → List Nat
  | b0 :: b1 :: b2 :: b3 :: rest =>
      (((b0 <<< 24) ||| (b1 <<< 16) ||| (b2 <<< 8) ||| b3) % 4294967296) :: bytesToWords rest
  | _ => []

/-- Extend a 16-word block to the 64-word message schedule, one word per fuel unit. -/
def sha256Extend : Nat → List Nat → List Nat
  | 0, w => w
  | fuel + 1, w =>
      let t := w.length
      let s0 :=
        Nat.xor (Nat.xor (rotr32 7 (w.getD (t - 15) 0)) (rotr32 18 (w.getD (t - 15) 0)))
          ((w.getD (t - 15) 0) >>> 3)
      let s1 :=
        Nat.xor (Nat.xor (rotr32 17 (w.getD (t - 2) 0)) (rotr32 19 (w.getD (t - 2) 0)))
          ((w.getD (t - 2) 0) >>> 10)
      sha256Extend fuel (w ++ [(w.getD (t - 16) 0 + s0 + w.getD (t - 7) 0 + s1) % 4294967296])

/-- One round of the SHA-256 compression function. -/
def sha256Round (st : Sha256State) (kw : Nat × Nat) : Sha256State :=
  let S1 := Nat.xor (Nat.xor (rotr32 6 st.e) (rotr32 11 st.e)) (rotr32 25 st.e)
  let ch := Nat.xor (st.e &&& st.f) ((not32 st.e) &&& st.g)
  let temp1 := (st.h + S1 + ch + kw.1 + kw.2) % 4294967296
  let S0 := Nat.xor (Nat.xor (rotr32 2 st.a) (rotr32 13 st.a)) (rotr32 22 st.a)
  let maj := Nat.xor (Nat.xor (st.a &&& st.b) (st.a &&& st.c)) (st.b &&& st.c)
  let temp2 := (S0 + maj) % 4294967296
  ⟨(temp1 + temp2) % 4294967296, st.a, st.b, st.c,
   (st.d + temp1) % 4294967296, st.e, st.f, st.g⟩

/-- Process one 64-byte block, updating the running hash state. -/
def sha256Block (st : Sha256State) (block : List Nat) : Sha256State :=
  let w := sha256Extend 48 (bytesToWords block)
  let r := (sha256K.zip w).foldl sha256Round st
  ⟨(st.a + r.a) % 4294967296, (st.b + r.b) % 4294967296,
   (st.c + r.c) % 4294967296, (st.d + r.d) % 4294967296,
   (st.e + r.e) % 4294967296, (st.f + r.f) % 4294967296,
   (st.g + r.g) % 4294967296, (st.h + r.h) % 4294967296⟩

/-- Hexadecimal digit character (lowercase, as Python's `hexdigest`). -/
def hexDigit (n : Nat) : Char :=
  if n < 10 then Char.ofNat (48 + n) else Char.ofNat (87 + n)

/-- Lowercase hexadecimal rendering of a value, `digits` nibbles wide, big-endian. -/
def natToHex (digits v : Nat) : List Char :=
  (List.range digits).map (fun i => hexDigit ((v >>> (4 * (digits - 1 - i))) &&& 15))

/-- SHA-256 digest of a byte list, as the lowercase-hex string of the 8 final words. -/
def sha256Hex (msg : List Nat) : String :=
  let padded := sha256Pad msg
  let final := (chunks64 (padded.length) padded).foldl sha256Block sha256Init
  String.mk (([final.a, final.b, final.c, final.d,
               final.e, final.f, final.g, final.h].map (natToHex 8)).flatten)

/-- Embedding of `hash_password` (main.py):
`hashlib.sha256(pw.encode("utf-8")).hexdigest()`. -/
def hash_password (pw : String) : String :=
  sha256Hex (utf8Bytes pw)

/-! ### ObjectId strings, ISO dates, and string filters -/

/-- Value of a hexadecimal digit character (both cases), `none` otherwise. -/
def hexVal? (c : Char) : Option Nat :=
  let n := c.toNat
  if 48 ≤ n ∧ n ≤ 57 then some (n - 48)
  else if 97 ≤ n ∧ n ≤ 102 then some (n - 87)
  else if 65 ≤ n ∧ n ≤ 70 then some (n - 55)
  else none

/-- Embedding of BSON `ObjectId(s)` applied to a string: it succeeds exactly
on 24-character hexadecimal strings, and we identify the resulting id with
the value of those 24 hex digits.  On any other string the constructor
raises `InvalidId`, modelled as `none`. -/
def parseObjectId (s : String) : Option Nat :=
  if s.length = 24 then
    s.data.foldl (fun acc c => acc.bind (fun v => (hexVal? c).map (fun d => 16 * v + d)))
      (some 0)
  else none

/-- Embedding of `str(oid)` on an ObjectId: 24 lowercase hex digits. -/
def objectIdToString (n : Nat) : String :=
  String.mk (natToHex 24 n)

/-- Value of a decimal digit character, `none` otherwise. -/
def digit? (c : Char) : Option Nat :=
  if 48 ≤ c.toNat ∧ c.toNat ≤ 57 then some (c.toNat - 48) else none

/-- Gregorian leap-year test. -/
def isLeapYear (y : Nat) : Bool :=
  y % 4 = 0 && (y % 100 ≠ 0 || y % 400 = 0)

/-- Number of days in a month of a given year. -/
def daysInMonth (y m : Nat) : Nat :=
  if m = 2 then (if isLeapYear y then 29 else 28)
  else if m = 4 ∨ m = 6 ∨ m = 9 ∨ m = 11 then 30
  else 31

/-- A calendar date (the value of Python's `datetime.date`). -/
structure Date where
  year : Nat
  month : Nat
  day : Nat
deriving DecidableEq

/-- The version-stable core of `datetime.fromisoformat(s).date()`: the
date-only ISO form `YYYY-MM-DD` — ten characters, digits in the digit
positions, dashes in positions 5 and 8, a valid Gregorian calendar date
with year ≥ 1 — which every supported CPython accepts with exactly this
value.  The grammar `fromisoformat` accepts *beyond* this form is
version-dependent (every CPython ≥ 3.7 also accepts ISO datetime strings
such as `2024-05-01T10:00`, and 3.11 widened the grammar further, e.g. to
`20240501`), so the handler embedding below abstracts the parser as a
parameter; this function only instantiates it in witnesses and
counterexamples, at inputs on which every version agrees. -/
def parseIsoDate (s : String) : Option Date :=
  match s.data with
  | [y1, y2, y3, y4, '-', m1, m2, '-', d1, d2] =>
    (digit? y1).bind fun a =>
    (digit? y2).bind fun b =>
    (digit? y3).bind fun c =>
    (digit? y4).bind fun d =>
    (digit? m1).bind fun e =>
    (digit? m2).bind fun f =>
    (digit? d1).bind fun g =>
    (digit? d2).bind fun h =>
    let y := 1000 * a + 100 * b + 10 * c + d
    let m := 10 * e + f
    let dd := 10 * g + h
    if 1 ≤ y ∧ 1 ≤ m ∧ m ≤ 12 ∧ 1 ≤ dd ∧ dd ≤ daysInMonth y m then
      some ⟨y, m, dd⟩
    else none
  | _ => none

/-- `pat` occurs at the head of `text`. -/
def listLeads [DecidableEq α] (pat text : List α) : Bool :=
  match pat, text with
  | [], _ => true
  | a :: as, b :: bs => if a = b then listLeads as bs else false
  | _, [] => false

/-- `pat` occurs as a contiguous subsequence of `text`. -/
def listContainsSeq [DecidableEq α] (pat : List α) : List α → Bool
  | [] => listLeads pat []
  | b :: bs => listLeads pat (b :: bs) || listContainsSeq pat bs

/-- ASCII lowercase fold (the case folding that the `i` regex option
performs on the ASCII strings in scope). -/
def lowerChar (c : Char) : Char :=
  if 65 ≤ c.toNat ∧ c.toNat ≤ 90 then Char.ofNat (c.toNat + 32) else c

/-- Case-insensitive (ASCII fold) substring test: does `text` contain `pat`? -/
def containsCI (text pat : String) : Bool :=
  listContainsSeq (pat.data.map lowerChar) (text.data.map lowerChar)

/-- Compile a regex pattern into atoms: a `+` directly after a character
makes that character a one-or-more atom (`true`); every other character is
a plain atom (`false`). -/
def rparse : List Char → List (Char × Bool)
  | [] => []
  | [c] => [(c, false)]
  | c :: q :: rest =>
    if q = '+' then (c, true) :: rparse rest else (c, false) :: rparse (q :: rest)

/-- Backtracking match of an atom list against the head of the text.  The
fuel argument only drives the recursion; `atoms.length + text.length` is
always sufficient, since every step consumes an atom or a character. -/
def rmatchFuel : Nat → List (Char × Bool) → List Char → Bool
  | _, [], _ => true
  | 0, _ :: _, _ => false
  | _ + 1, (_, false) :: _, [] => false
  | fuel + 1, (c, false) :: as, t :: ts =>
    if c = t then rmatchFuel fuel as ts else false
  | _ + 1, (_, true) :: _, [] => false
  | fuel + 1, (c, true) :: as, t :: ts =>
    if c = t then (rmatchFuel fuel as ts || rmatchFuel fuel ((c, true) :: as) ts) else false

/-- The atom list matches at the head of the text. -/
def rmatchHere (atoms : List (Char × Bool)) (text : List Char) : Bool :=
  rmatchFuel (atoms.length + text.length) atoms text

/-- Unanchored search: the atom list matches at some position of the text. -/
def rsearch (atoms : List (Char × Bool)) : List Char → Bool
  | [] => rmatchHere atoms []
  | t :: ts => rmatchHere atoms (t :: ts) || rsearch atoms ts

/-- Embedding of the MongoDB filter `{"$regex": pat, "$options": "i"}`
(a PCRE search): the pattern is compiled by `rparse` and searched for in
the text, unanchored and case-insensitively.  The modelled PCRE fragment
is literal characters plus the postfix one-or-more quantifier `+`
following a literal; patterns using other regex constructs lie outside
the fragment (their metacharacters are not interpreted), and no theorem
below reasons about them.  On metacharacter-free patterns the search
provably coincides with case-insensitive substring search
(`regexCI_literal`). -/
def regexCI (pat text : String) : Bool :=
  rsearch ((rparse pat.data).map (fun a => (lowerChar a.1, a.2))) (text.data.map lowerChar)

/-- The pattern contains no regex metacharacter, so `$regex` search on it
coincides with plain substring search. -/
def regexLiteral (s : String) : Bool :=
  s.data.all (fun c => !(([92, 46, 94, 36, 42, 43, 63, 40, 41, 91, 93, 123, 125, 124].map Char.ofNat).contains c))

/-- Python truthiness of an optional string parameter: `if x:` holds iff the
parameter is present and non-empty. -/
def truthy : Option String → Bool
  | none => false
  | some s => s ≠ ""

/-! ### The document store

`main.py` talks to MongoDB through the handle `db` and through the
repository's `database` module (`create_document`), which is not among the
sources.  The store is modelled as three typed collections in natural
(insertion) order.  Modelled from the spec: `create_document(collection,
record)` "serializes the record and inserts it, returning a generated
identifier"; generated identifiers are modelled by a strictly increasing
counter `tick`, and — since `list_bookings` sorts on a `created_at` field
that no schema declares, while the spec promises newest-first order —
each inserted booking is stamped with its creation tick as `created_at`. -/

/-- A stored document of the `user` collection (`schemas.User` plus the
generated `_id`). -/
structure UserDoc where
  oid : Nat
  name : String
  email : String
  password_hash : String
  phone : Option String
  address : Option String
  is_active : Bool
deriving DecidableEq

/-- A stored document of the `worker` collection (`schemas.Worker` plus the
generated `_id`). -/
structure WorkerDoc where
  oid : Nat
  name : String
  service_type : String
  location : String
  availability : List String
  rating : Rat
  experience_years : Int
  bio : Option String
deriving DecidableEq

/-- A stored document of the `booking` collection (`schemas.Booking` plus
the generated `_id` and the creation stamp `created_at`). -/
structure BookingDoc where
  oid : Nat
  user_id : String
  worker_id : String
  service_date : Date
  time_slot : String
  address : String
  status : String
  created_at : Nat
deriving DecidableEq

/-- The connected document store: the three collections in natural order
and the generation counter for identifiers / creation stamps. -/
structure Store where
  users : List UserDoc
  workers : List WorkerDoc
  bookings : List BookingDoc
  tick : Nat
deriving DecidableEq

/-- Store well-formedness: every generated identifier and creation stamp
precedes the current counter (true of every store built by the modelled
`create_document`). -/
def Store.wf (st : Store) : Bool :=
  st.users.all (fun u => u.oid < st.tick) &&
  st.workers.all (fun w => w.oid < st.tick) &&
  st.bookings.all (fun b => b.oid < st.tick && b.created_at < st.tick)

/-! ### Request/response shapes -/

/-- The outcome of one handler call as seen by the HTTP client:
a JSON value, a raised `HTTPException(status_code, detail)`, or an
exception that escapes the handler (which FastAPI surfaces as a
500 Internal Server Error). -/
inductive Resp (α : Type) where
  | ok : α → Resp α
  | httpError : Nat → String → Resp α
  | serverError : String → Resp α
deriving DecidableEq

/-- Body of `POST /auth/register` (`RegisterRequest` in main.py). -/
structure RegisterRequest where
  name : String
  email : String
  password : String
  phone : Option String
  address : Option String
deriving DecidableEq

/-- Body of `POST /auth/login` (`LoginRequest` in main.py). -/
structure LoginRequest where
  email : String
  password : String
deriving DecidableEq

/-- Body of `POST /workers` (`CreateWorkerRequest` in main.py; note that
this request model itself carries no range constraints). -/
structure CreateWorkerRequest where
  name : String
  service_type : String
  location : String
  availability : List String
  rating : Rat
  experience_years : Int
  bio : Option String
deriving DecidableEq

/-- Body of `POST /bookings` (`CreateBookingRequest` in main.py). -/
structure CreateBookingRequest where
  user_id : String
  worker_id : String
  service_date : String
  time_slot : String
  address : String
deriving DecidableEq

/-- A user document after `to_public_id`: the full document with `_id`
replaced by its string form under the key `id` (every other field,
`password_hash` included, is kept). -/
structure PublicUser where
  id : String
  name : String
  email : String
  password_hash : String
  phone : Option String
  address : Option String
  is_active : Bool
deriving DecidableEq

/-- A worker document after `to_public_id`. -/
structure PublicWorker where
  id : String
  name : String
  service_type : String
  location : String
  availability : List String
  rating : Rat
  experience_years : Int
  bio : Option String
deriving DecidableEq

/-- A booking document after `to_public_id`. -/
structure PublicBooking where
  id : String
  user_id : String
  worker_id : String
  service_date : Date
  time_slot : String
  address : String
  status : String
  created_at : Nat
deriving DecidableEq

/-- `to_public_id` on a user document. -/
def toPublicUser (u : UserDoc) : PublicUser :=
  ⟨objectIdToString u.oid, u.name, u.email, u.password_hash, u.phone, u.address, u.is_active⟩

/-- `to_public_id` on a worker document. -/
def toPublicWorker (w : WorkerDoc) : PublicWorker :=
  ⟨objectIdToString w.oid, w.name, w.service_type, w.location, w.availability,
   w.rating, w.experience_years, w.bio⟩

/-- `to_public_id` on a booking document. -/
def toPublicBooking (b : BookingDoc) : PublicBooking :=
  ⟨objectIdToString b.oid, b.user_id, b.worker_id, b.service_date, b.time_slot,
   b.address, b.status, b.created_at⟩

/-! ### Handlers (main.py)

Each handler takes the store handle `db` — `none` models `db is None` —
and returns the client-visible outcome together with the store after the
call. -/

/-- The document `register` inserts: `schemas.User` built from the payload
with the password hash and `is_active=True`, given the next generated id. -/
def newUserDoc (st : Store) (p : RegisterRequest) : UserDoc :=
  ⟨st.tick, p.name, p.email, hash_password p.password, p.phone, p.address, true⟩

/-- The store after `create_document("user", ...)`. -/
def regStore (st : Store) (p : RegisterRequest) : Store :=
  { st with users := st.users ++ [newUserDoc st p], tick := st.tick + 1 }

/-- Embedding of `POST /auth/register` (main.py `register`). -/
def register (store : Option Store) (p : RegisterRequest) :
    Resp (Option PublicUser) × Option Store :=
  match store with
  | none => (Resp.httpError 500 "Database not available", none)
  | some st =>
    match st.users.find? (fun u => u.email == p.email) with
    | some _ => (Resp.httpError 400 "Email already registered", some st)
    | none =>
      let st' := regStore st p
      (Resp.ok ((st'.users.find? (fun u => u.oid == st.tick)).map toPublicUser), some st')

/-- Embedding of `POST /auth/login` (main.py `login`). -/
def login (store : Option Store) (p : LoginRequest) :
    Resp PublicUser × Option Store :=
  match store with
  | none => (Resp.httpError 500 "Database not available", none)
  | some st =>
    match st.users.find? (fun u => u.email == p.email) with
    | none => (Resp.httpError 401 "Invalid credentials", some st)
    | some u =>
      if u.password_hash ≠ hash_password p.password then
        (Resp.httpError 401 "Invalid credentials", some st)
      else
        (Resp.ok (toPublicUser u), some st)

/-- The MongoDB query built by `list_workers`: equality on `service_type`
and case-insensitive `$regex` on `location`, each included only when the
parameter is truthy (present and non-empty). -/
def workerQuery (service_type location : Option String) (w : WorkerDoc) : Bool :=
  (if truthy service_type then w.service_type == service_type.getD "" else true) &&
  (if truthy location then regexCI (location.getD "") w.location else true)

/-- Embedding of `GET /workers` (main.py `list_workers`):
matching documents in natural order, capped at 200. -/
def list_workers (store : Option Store) (service_type location : Option String) :
    Resp (List PublicWorker) × Option Store :=
  match store with
  | none => (Resp.httpError 500 "Database not available", none)
  | some st =>
    (Resp.ok (((st.workers.filter (workerQuery service_type location)).take 200).map toPublicWorker),
     some st)

/-- The document `create_worker` inserts, given the next generated id. -/
def newWorkerDoc (st : Store) (p : CreateWorkerRequest) : WorkerDoc :=
  ⟨st.tick, p.name, p.service_type, p.location, p.availability, p.rating,
   p.experience_years, p.bio⟩

/-- The store after `create_document("worker", ...)`. -/
def workerStore (st : Store) (p : CreateWorkerRequest) : Store :=
  { st with workers := st.workers ++ [newWorkerDoc st p], tick := st.tick + 1 }

/-- Embedding of `POST /workers` (main.py `create_worker`).  The
`schemas.Worker` constraints (`rating` in [0,5], `experience_years ≥ 0`)
are checked when `WorkerSchema(**payload.model_dump())` runs *inside* the
handler body; a violation raises pydantic `ValidationError`, which no
`except` catches — FastAPI surfaces it as a 500 server error. -/
def create_worker (store : Option Store) (p : CreateWorkerRequest) :
    Resp (Option PublicWorker) × Option Store :=
  match store with
  | none => (Resp.httpError 500 "Database not available", none)
  | some st =>
    if 0 ≤ p.rating ∧ p.rating ≤ 5 ∧ 0 ≤ p.experience_years then
      let st' := workerStore st p
      (Resp.ok ((st'.workers.find? (fun w => w.oid == st.tick)).map toPublicWorker), some st')
    else
      (Resp.serverError "ValidationError", some st)

/-- The document `create_booking` inserts: `schemas.Booking` built from the
payload with the parsed date and `status="pending"`, stamped with the next
generated id / creation tick. -/
def newBookingDoc (st : Store) (p : CreateBookingRequest) (d : Date) : BookingDoc :=
  ⟨st.tick, p.user_id, p.worker_id, d, p.time_slot, p.address, "pending", st.tick⟩

/-- The store after `create_document("booking", ...)`. -/
def bookingStore (st : Store) (p : CreateBookingRequest) (d : Date) : Store :=
  { st with bookings := st.bookings ++ [newBookingDoc st p d], tick := st.tick + 1 }

/-- Embedding of `POST /bookings` (main.py `create_booking`).  `ObjectId`
is applied to `user_id` first, so a malformed `user_id` yields the 400
before `worker_id` is parsed; both failures are caught by the same
`except` → 400.  The reference lookups then gate the 404.  Only after both
checks does `datetime.fromisoformat(payload.service_date)` run — outside
any `try`, so a string it rejects escapes as a `ValueError` (a 500 server
error), inserting nothing.  Because the grammar `fromisoformat` accepts
is CPython-version-dependent, the handler is parameterized by the
runtime's behavior of `datetime.fromisoformat(·).date()`: `fromiso s =
some d` when the call returns a value whose date is `d`, and `none` when
it raises `ValueError`.  Theorems quantify over `fromiso`, so they hold
for every runtime. -/
def create_booking (fromiso : String → Option Date) (store : Option Store)
    (p : CreateBookingRequest) :
    Resp (Option PublicBooking) × Option Store :=
  match store with
  | none => (Resp.httpError 500 "Database not available", none)
  | some st =>
    match parseObjectId p.user_id with
    | none => (Resp.httpError 400 "Invalid user_id or worker_id", some st)
    | some uid =>
      match parseObjectId p.worker_id with
      | none => (Resp.httpError 400 "Invalid user_id or worker_id", some st)
      | some wid =>
        match st.users.find? (fun u => u.oid == uid),
              st.workers.find? (fun w => w.oid == wid) with
        | some _, some _ =>
          match fromiso p.service_date with
          | none => (Resp.serverError "ValueError", some st)
          | some d =>
            let st' := bookingStore st p d
            (Resp.ok ((st'.bookings.find? (fun b => b.oid == st.tick)).map toPublicBooking),
             some st')
        | _, _ => (Resp.httpError 404 "User or Worker not found", some st)

/-- Descending insertion by `created_at` (helper of the sort below). -/
def insertDesc (b : BookingDoc) : List BookingDoc → List BookingDoc
  | [] => [b]
  | c :: cs => if c.created_at ≤ b.created_at then b :: c :: cs else c :: insertDesc b cs

/-- Embedding of the cursor `sort("created_at", -1)`: the matching
documents ordered by `created_at`, newest first. -/
def sortByCreatedDesc : List BookingDoc → List BookingDoc
  | [] => []
  | b :: bs => insertDesc b (sortByCreatedDesc bs)

/-- The MongoDB query built by `list_bookings`: equality on `user_id`,
included only when the parameter is truthy (present and non-empty). -/
def bookingQuery (user_id : Option String) (b : BookingDoc) : Bool :=
  if truthy user_id then b.user_id == user_id.getD "" else true

/-- Embedding of `GET /bookings` (main.py `list_bookings`): matching
documents sorted newest-first, capped at 100. -/
def list_bookings (store : Option Store) (user_id : Option String) :
    Resp (List PublicBooking) × Option Store :=
  match store with
  | none => (Resp.httpError 500 "Database not available", none)
  | some st =>
    (Resp.ok (((sortByCreatedDesc (st.bookings.filter (bookingQuery user_id))).take 100).map
        toPublicBooking),
     some st)

/-! ### Helper lemmas -/

/-- `find?` on a collection extended by one document returns that document
when no earlier document matches. -/
theorem find?_append_last {α : Type} (p : α → Bool) (l : List α) (a : α)
    (hl : ∀ x ∈ l, p x = false) (ha : p a = true) :
    (l ++ [a]).find? p = some a := by
  induction l with
  | nil => simp [List.find?, ha]
  | cons b bs ih =>
    have hb : p b = false := hl b (List.mem_cons_self b bs)
    simp only [List.cons_append, List.find?, hb]
    exact ih (fun x hx => hl x (List.mem_cons_of_mem b hx))

/-- A list occurs at its own head. -/
theorem listLeads_self {α : Type} [DecidableEq α] (l : List α) : listLeads l l = true := by
  induction l with
  | nil => rfl
  | cons a as ih => simp [listLeads, ih]

/-- A list contains itself as a contiguous subsequence. -/
theorem listContainsSeq_self {α : Type} [DecidableEq α] (l : List α) :
    listContainsSeq l l = true := by
  cases l with
  | nil => rfl
  | cons a as => simp [listContainsSeq, listLeads_self]

/-- Every string contains itself, case-insensitively. -/
theorem containsCI_self (s : String) : containsCI s s = true :=
  listContainsSeq_self _

/-- A pattern without `+` compiles to plain atoms only. -/
theorem rparse_literal (l : List Char) (h : ∀ c ∈ l, c ≠ '+') :
    rparse l = l.map (fun c => (c, false)) := by
  induction l with
  | nil => rfl
  | cons c rest ih =>
    cases rest with
    | nil => rfl
    | cons q rest' =>
      have hq : q ≠ '+' := h q (by simp)
      rw [rparse, if_neg hq, List.map]
      exact congrArg _ (ih fun x hx => h x (List.mem_cons_of_mem _ hx))

/-- On plain atoms the head match is the prefix test, given enough fuel. -/
theorem rmatchFuel_plain (p : List Char) :
    ∀ (fuel : Nat) (t : List Char), p.length ≤ fuel →
      rmatchFuel fuel (p.map (fun c => (c, false))) t = listLeads p t := by
  induction p with
  | nil =>
    intro fuel t _
    simp [rmatchFuel, listLeads]
  | cons c cs ih =>
    intro fuel t h
    cases fuel with
    | zero => exact absurd h (by simp)
    | succ f =>
      have hf : cs.length ≤ f := by simpa using h
      cases t with
      | nil => rfl
      | cons b bs =>
        simp only [List.map, rmatchFuel, listLeads]
        by_cases hcb : c = b
        · rw [if_pos hcb, if_pos hcb, ih f bs hf]
        · rw [if_neg hcb, if_neg hcb]

/-- On plain atoms the head match is the prefix test. -/
theorem rmatchHere_plain (p t : List Char) :
    rmatchHere (p.map (fun c => (c, false))) t = listLeads p t := by
  apply rmatchFuel_plain
  simp

/-- On plain atoms the unanchored search is the substring test. -/
theorem rsearch_plain (p t : List Char) :
    rsearch (p.map (fun c => (c, false))) t = listContainsSeq p t := by
  induction t with
  | nil => exact rmatchHere_plain p []
  | cons b bs ih => simp [rsearch, listContainsSeq, rmatchHere_plain, ih]

/-- On a pattern free of regex metacharacters the `$regex`/`i` search is
exactly the case-insensitive substring test. -/
theorem regexCI_literal (pat text : String) (hlit : regexLiteral pat = true) :
    regexCI pat text = containsCI text pat := by
  have hplus : ∀ c ∈ pat.data, c ≠ '+' := by
    intro c hc heq
    have h2 := List.all_eq_true.mp hlit c hc
    rw [heq] at h2
    exact absurd h2 (by decide)
  unfold regexCI containsCI
  rw [rparse_literal pat.data hplus]
  have hmaps : (List.map (fun c => (c, false)) pat.data).map
        (fun a : Char × Bool => (lowerChar a.1, a.2)) =
      (pat.data.map lowerChar).map (fun c => (c, false)) := by
    simp [List.map_map]
  rw [hmaps]
  exact rsearch_plain _ _

/-- Membership in a descending insertion. -/
theorem mem_insertDesc {b x : BookingDoc} {l : List BookingDoc} :
    x ∈ insertDesc b l ↔ x = b ∨ x ∈ l := by
  induction l with
  | nil => simp [insertDesc]
  | cons c cs ih =>
    simp only [insertDesc]
    by_cases hc : c.created_at ≤ b.created_at
    · simp [hc]
    · simp only [if_neg hc, List.mem_cons, ih]
      tauto

/-- The descending sort is membership-preserving. -/
theorem mem_sortByCreatedDesc {x : BookingDoc} {l : List BookingDoc} :
    x ∈ sortByCreatedDesc l ↔ x ∈ l := by
  induction l with
  | nil => simp [sortByCreatedDesc]
  | cons b bs ih => simp [sortByCreatedDesc, mem_insertDesc, ih]

/-- Descending insertion preserves descending order. -/
theorem pairwise_insertDesc (b : BookingDoc) (l : List BookingDoc)
    (h : l.Pairwise (fun x y => y.created_at ≤ x.created_at)) :
    (insertDesc b l).Pairwise (fun x y => y.created_at ≤ x.created_at) := by
  induction l with
  | nil => simp [insertDesc]
  | cons c cs ih =>
    rcases List.pairwise_cons.mp h with ⟨hhead, htail⟩
    simp only [insertDesc]
    by_cases hc : c.created_at ≤ b.created_at
    · rw [if_pos hc]
      refine List.pairwise_cons.mpr ⟨?_, h⟩
      intro x hx
      rcases List.mem_cons.mp hx with hx | hx
      · exact hx ▸ hc
      · exact le_trans (hhead x hx) hc
    · rw [if_neg hc]
      refine List.pairwise_cons.mpr ⟨?_, ih htail⟩
      intro x hx
      rcases mem_insertDesc.mp hx with hx | hx
      · exact hx ▸ Nat.le_of_lt (Nat.lt_of_not_le hc)
      · exact hhead x hx

/-- The sort produces a list in descending `created_at` order. -/
theorem pairwise_sortByCreatedDesc (l : List BookingDoc) :
    (sortByCreatedDesc l).Pairwise (fun x y => y.created_at ≤ x.created_at) := by
  induction l with
  | nil => simp [sortByCreatedDesc]
  | cons b bs ih => exact pairwise_insertDesc b _ ih

/-- In a well-formed store no user document carries the fresh id. -/
theorem wf_users_oid_ne {st : Store} (hwf : st.wf = true) :
    ∀ u ∈ st.users, (u.oid == st.tick) = false := by
  intro u hu
  have h1 := (Bool.and_eq_true _ _).mp ((Bool.and_eq_true _ _).mp hwf).1
  have := List.all_eq_true.mp h1.1 u hu
  simp only [decide_eq_true_eq] at this
  simp [Nat.ne_of_lt this]

/-- In a well-formed store no worker document carries the fresh id. -/
theorem wf_workers_oid_ne {st : Store} (hwf : st.wf = true) :
    ∀ w ∈ st.workers, (w.oid == st.tick) = false := by
  intro w hw
  have h1 := (Bool.and_eq_true _ _).mp ((Bool.and_eq_true _ _).mp hwf).1
  have := List.all_eq_true.mp h1.2 w hw
  simp only [decide_eq_true_eq] at this
  simp [Nat.ne_of_lt this]

/-- In a well-formed store no booking document carries the fresh id. -/
theorem wf_bookings_oid_ne {st : Store} (hwf : st.wf = true) :
    ∀ b ∈ st.bookings, (b.oid == st.tick) = false := by
  intro b hb
  have h2 := (Bool.and_eq_true _ _).mp hwf
  have := List.all_eq_true.mp h2.2 b hb
  have := (Bool.and_eq_true _ _).mp this
  simp only [decide_eq_true_eq] at this
  simp [Nat.ne_of_lt this.1]

/-- The refetch after inserting a user finds exactly the inserted document. -/
theorem register_refetch {st : Store} (hwf : st.wf = true) (p : RegisterRequest) :
    (regStore st p).users.find? (fun u => u.oid == st.tick) = some (newUserDoc st p) := by
  exact find?_append_last _ _ _ (wf_users_oid_ne hwf) (by simp [newUserDoc])

/-- The refetch after inserting a worker finds exactly the inserted document. -/
theorem worker_refetch {st : Store} (hwf : st.wf = true) (p : CreateWorkerRequest) :
    (workerStore st p).workers.find? (fun w => w.oid == st.tick) = some (newWorkerDoc st p) := by
  exact find?_append_last _ _ _ (wf_workers_oid_ne hwf) (by simp [newWorkerDoc])

/-- The refetch after inserting a booking finds exactly the inserted document. -/
theorem booking_refetch {st : Store} (hwf : st.wf = true) (p : CreateBookingRequest) (d : Date) :
    (bookingStore st p d).bookings.find? (fun b => b.oid == st.tick) =
      some (newBookingDoc st p d) := by
  exact find?_append_last _ _ _ (wf_bookings_oid_ne hwf) (by simp [newBookingDoc])

/-! ### Concrete fixtures for witnesses and counterexamples -/

/-- The empty connected store. -/
def stEmpty : Store := ⟨[], [], [], 0⟩

/-- A concrete registration payload. -/
def pAlice : RegisterRequest := ⟨"Alice", "a@x.com", "pw1", none, none⟩

/-- A stored user whose hash is not the hash of any password used below. -/
def uAlice : UserDoc := ⟨0, "Alice", "a@x.com", "stored-hash-1", none, none, true⟩

/-- A stored user whose hash is the hash of the password `pw2`. -/
def uBob : UserDoc := ⟨0, "Bob", "b@x.com", hash_password "pw2", none, none, true⟩

/-- A store holding just `uBob`. -/
def stBob : Store := ⟨[uBob], [], [], 1⟩

/-- A stored worker. -/
def wGuntur : WorkerDoc := ⟨1, "Arun K", "plumber", "Guntur", ["10:00-12:00"], 4, 4, none⟩

/-- A store holding one user and one worker. -/
def stAW : Store := ⟨[uAlice], [wGuntur], [], 2⟩

/-- A stored booking referencing `uAlice` and `wGuntur` by their id strings. -/
def bkA : BookingDoc :=
  ⟨2, "000000000000000000000000", "000000000000000000000001", ⟨2024, 5, 1⟩,
   "09:00-11:00", "12 Main St", "pending", 2⟩

/-- A store holding one user, one worker and one booking. -/
def stB : Store := ⟨[uAlice], [wGuntur], [bkA], 3⟩

/-- A worker-creation payload. -/
def pWork : CreateWorkerRequest := ⟨"Sita", "electrician", "Vijayawada", [], 5, 8, none⟩

/-- A worker-creation payload with an out-of-range rating. -/
def pWorkBadRating : CreateWorkerRequest := ⟨"X", "plumber", "Guntur", [], 6, 1, none⟩

/-- A worker-creation payload with negative experience. -/
def pWorkBadExp : CreateWorkerRequest := ⟨"Y", "plumber", "Guntur", [], 4, -3, none⟩

/-- A worker-creation payload whose location contains the regex
metacharacter `+`. -/
def pPlusLoc : CreateWorkerRequest := ⟨"Ravi", "plumber", "A+B", [], 4, 5, none⟩

/-- A booking payload with well-formed, resolving ids but a malformed date. -/
def pBadDate : CreateBookingRequest :=
  ⟨"000000000000000000000000", "000000000000000000000001", "not-a-date",
   "09:00-11:00", "12 Main St"⟩

/-- A booking payload with well-formed, resolving ids and a valid date. -/
def pGoodBooking : CreateBookingRequest :=
  ⟨"000000000000000000000000", "000000000000000000000001", "2024-05-01",
   "09:00-11:00", "12 Main St"⟩

/-! ### Claims -/

/-- C2: if some stored user already has the submitted email, `register`
fails with the 400 duplicate-email error and the store (in particular the
user collection) is unchanged; if no stored user has that email,
`register` inserts exactly one user storing the password hash and returns
the created record carrying its identifier. -/
theorem register_spec (st : Store) (hwf : st.wf = true) (p : RegisterRequest) :
    ((∃ u ∈ st.users, u.email = p.email) →
      register (some st) p = (Resp.httpError 400 "Email already registered", some st))
    ∧ (st.users.find? (fun u => u.email == p.email) = none →
      register (some st) p =
        (Resp.ok (some (toPublicUser (newUserDoc st p))), some (regStore st p))
      ∧ (regStore st p).users = st.users ++ [newUserDoc st p]
      ∧ (newUserDoc st p).password_hash = hash_password p.password
      ∧ (toPublicUser (newUserDoc st p)).id = objectIdToString (newUserDoc st p).oid) := by
  constructor
  · rintro ⟨u, hu, he⟩
    rcases hfind : st.users.find? (fun u => u.email == p.email) with _ | v
    · exfalso
      have := List.find?_eq_none.mp hfind u hu
      simp [he] at this
    · simp [register, hfind]
  · intro hfind
    refine ⟨?_, rfl, rfl, rfl⟩
    simp [register, hfind, register_refetch hwf]

/-- C2 witness: on a store already holding `uBob` a second registration of
`b@x.com` fails with duplicate-email and changes nothing; on the empty
store registration succeeds. -/
theorem register_spec_witness :
    register (some stBob) ⟨"Eve", "b@x.com", "pw9", none, none⟩ =
      (Resp.httpError 400 "Email already registered", some stBob)
    ∧ register (some stEmpty) pAlice =
      (Resp.ok (some (toPublicUser (newUserDoc stEmpty pAlice))), some (regStore stEmpty pAlice)) :=
  ⟨(register_spec stBob (by decide) _).1 ⟨uBob, by simp [stBob], rfl⟩,
   ((register_spec stEmpty (by decide) pAlice).2 rfl).1⟩

/-- C3: a login whose email matches no stored user and a login whose email
matches a stored user but whose submitted password hashes to something
other than the stored hash fail with the very same response — status 401
and detail "Invalid credentials" — so the failure does not reveal which
check failed. -/
theorem login_failures_indistinguishable (st : Store) (p : LoginRequest) :
    (st.users.find? (fun u => u.email == p.email) = none →
      login (some st) p = (Resp.httpError 401 "Invalid credentials", some st))
    ∧ (∀ u, st.users.find? (fun u => u.email == p.email) = some u →
      u.password_hash ≠ hash_password p.password →
      login (some st) p = (Resp.httpError 401 "Invalid credentials", some st)) := by
  constructor
  · intro hfind
    simp [login, hfind]
  · intro u hfind hne
    simp [login, hfind, hne]

/-- C3 witness: a login against the empty store and a wrong-password login
against a store holding `uAlice` produce the same 401 response. -/
theorem login_failures_indistinguishable_witness :
    login (some stEmpty) ⟨"a@x.com", "pw1"⟩ =
      (Resp.httpError 401 "Invalid credentials", some stEmpty)
    ∧ login (some stAW) ⟨"a@x.com", "wrong"⟩ =
      (Resp.httpError 401 "Invalid credentials", some stAW) :=
  ⟨(login_failures_indistinguishable stEmpty ⟨"a@x.com", "pw1"⟩).1 rfl,
   (login_failures_indistinguishable stAW ⟨"a@x.com", "wrong"⟩).2 uAlice rfl (by decide)⟩

/-- C4: if `register` succeeds on a store with no user under the submitted
email, then logging in with the same email and password on the resulting
store succeeds and returns the created user's record — the hash stored at
registration is reproduced by hashing the same password at login. -/
theorem register_then_login_roundtrip (st : Store) (hwf : st.wf = true)
    (p : RegisterRequest)
    (hfresh : st.users.find? (fun u => u.email == p.email) = none) :
    register (some st) p =
      (Resp.ok (some (toPublicUser (newUserDoc st p))), some (regStore st p))
    ∧ login (some (regStore st p)) ⟨p.email, p.password⟩ =
      (Resp.ok (toPublicUser (newUserDoc st p)), some (regStore st p)) := by
  have hnone := List.find?_eq_none.mp hfresh
  constructor
  · simp [register, hfresh, register_refetch hwf]
  · have hfind2 : (regStore st p).users.find? (fun u => u.email == p.email) =
        some (newUserDoc st p) := by
      apply find?_append_last
      · intro x hx
        cases hpx : (x.email == p.email) with
        | false => rfl
        | true => exact absurd hpx (hnone x hx)
      · simp [newUserDoc]
    simp [login, hfind2, newUserDoc]

/-- C4 witness: registering Alice on the empty store and logging in with
her email and password succeeds. -/
theorem register_then_login_roundtrip_witness :
    register (some stEmpty) pAlice =
      (Resp.ok (some (toPublicUser (newUserDoc stEmpty pAlice))), some (regStore stEmpty pAlice))
    ∧ login (some (regStore stEmpty pAlice)) ⟨pAlice.email, pAlice.password⟩ =
      (Resp.ok (toPublicUser (newUserDoc stEmpty pAlice)), some (regStore stEmpty pAlice)) :=
  register_then_login_roundtrip stEmpty (by decide) pAlice rfl

/-- C8: with no database connection (`db is None`) each data-touching
endpoint — register, login, list_workers, create_worker, create_booking,
list_bookings — returns the 500 "Database not available" error without
touching any document (there is no store to read or write, and the handle
stays `none`). -/
theorem store_unavailable_all_endpoints (p₁ : RegisterRequest) (p₂ : LoginRequest)
    (a b : Option String) (p₃ : CreateWorkerRequest)
    (f : String → Option Date) (p₄ : CreateBookingRequest)
    (c : Option String) :
    register none p₁ = (Resp.httpError 500 "Database not available", none)
    ∧ login none p₂ = (Resp.httpError 500 "Database not available", none)
    ∧ list_workers none a b = (Resp.httpError 500 "Database not available", none)
    ∧ create_worker none p₃ = (Resp.httpError 500 "Database not available", none)
    ∧ create_booking f none p₄ = (Resp.httpError 500 "Database not available", none)
    ∧ list_bookings none c = (Resp.httpError 500 "Database not available", none) :=
  ⟨rfl, rfl, rfl, rfl, rfl, rfl⟩

/-- C9: a successful register response is the full user document with
`_id` renamed to the string field `id`, and still carries `password_hash`,
equal to the hash of the submitted password; a successful login response
likewise returns the stored document, `password_hash` included. -/
theorem responses_expose_password_hash (st : Store) (hwf : st.wf = true)
    (p : RegisterRequest) :
    (st.users.find? (fun u => u.email == p.email) = none →
      (register (some st) p).1 = Resp.ok (some (toPublicUser (newUserDoc st p)))
      ∧ (toPublicUser (newUserDoc st p)).password_hash = hash_password p.password
      ∧ (toPublicUser (newUserDoc st p)).id = objectIdToString (newUserDoc st p).oid)
    ∧ (∀ u (q : LoginRequest), st.users.find? (fun v => v.email == q.email) = some u →
      u.password_hash = hash_password q.password →
      (login (some st) q).1 = Resp.ok (toPublicUser u)
      ∧ (toPublicUser u).password_hash = u.password_hash
      ∧ (toPublicUser u).id = objectIdToString u.oid) := by
  constructor
  · intro hfind
    refine ⟨?_, rfl, rfl⟩
    simp [register, hfind, register_refetch hwf]
  · intro u q hfind heq
    refine ⟨?_, rfl, rfl⟩
    simp [login, hfind, heq]

/-- C9 witness: registering Alice on the empty store returns her hash, and
Bob's login returns his stored document with its hash. -/
theorem responses_expose_password_hash_witness :
    (register (some stEmpty) pAlice).1 = Resp.ok (some (toPublicUser (newUserDoc stEmpty pAlice)))
    ∧ (login (some stBob) ⟨"b@x.com", "pw2"⟩).1 = Resp.ok (toPublicUser uBob) :=
  ⟨((responses_expose_password_hash stEmpty (by decide) pAlice).1 rfl).1,
   ((responses_expose_password_hash stBob (by decide) pAlice).2 uBob ⟨"b@x.com", "pw2"⟩ rfl rfl).1⟩

/-- A freshly created worker whose location is free of regex
metacharacters matches the query built from its own exact `service_type`
and its own `location` (whether or not Python truthiness keeps each
filter). -/
theorem workerQuery_self (st : Store) (p : CreateWorkerRequest)
    (hlit : regexLiteral p.location = true) :
    workerQuery (some p.service_type) (some p.location) (newWorkerDoc st p) = true := by
  have hregex : regexCI p.location p.location = true := by
    rw [regexCI_literal _ _ hlit]
    exact containsCI_self _
  unfold workerQuery
  cases h1 : truthy (some p.service_type) <;> cases h2 : truthy (some p.location) <;>
    simp [hregex, newWorkerDoc]

/-- C5 counterexample: `create_worker` accepts a worker whose location is
"A+B", but `list_workers` filters location with
`{"$regex": location, "$options": "i"}`, and the PCRE search /A+B/i finds
no match in the text "A+B" — one or more `A` must be followed immediately
by `B`, which never happens there — so the round trip the claim states
fails: the listing filtered by the worker's own service type and location
returns the empty list.  The location is matched as a regex, not as the
case-insensitive substring the claim describes. -/
theorem create_worker_regex_location_cex :
    create_worker (some stEmpty) pPlusLoc =
      (Resp.ok (some (toPublicWorker (newWorkerDoc stEmpty pPlusLoc))),
       some (workerStore stEmpty pPlusLoc))
    ∧ regexCI "A+B" "A+B" = false
    ∧ list_workers (some (workerStore stEmpty pPlusLoc)) (some "plumber") (some "A+B") =
      (Resp.ok [], some (workerStore stEmpty pPlusLoc)) := by
  refine ⟨by decide, by decide, by decide⟩

/-- C5 (amended): a worker successfully created by `create_worker` is
returned by a subsequent `list_workers` filtered by that worker's exact
`service_type` and by its `location`, provided the matching records do
not exceed the 200-record cap *and the location contains no regex
metacharacter* — on such literal patterns the `$regex`/`i` filter
provably coincides with case-insensitive substring search
(`regexCI_literal`), whereas on metacharacter locations the regex
semantics can reject the worker's own location (see the
counterexample). -/
theorem create_worker_then_list_roundtrip (st : Store) (hwf : st.wf = true)
    (p : CreateWorkerRequest)
    (hvalid : 0 ≤ p.rating ∧ p.rating ≤ 5 ∧ 0 ≤ p.experience_years)
    (hlit : regexLiteral p.location = true)
    (hcap : ((workerStore st p).workers.filter
        (workerQuery (some p.service_type) (some p.location))).length ≤ 200) :
    create_worker (some st) p =
      (Resp.ok (some (toPublicWorker (newWorkerDoc st p))), some (workerStore st p))
    ∧ list_workers (some (workerStore st p)) (some p.service_type) (some p.location) =
      (Resp.ok ((((workerStore st p).workers.filter
          (workerQuery (some p.service_type) (some p.location))).take 200).map toPublicWorker),
       some (workerStore st p))
    ∧ toPublicWorker (newWorkerDoc st p) ∈
      (((workerStore st p).workers.filter
          (workerQuery (some p.service_type) (some p.location))).take 200).map toPublicWorker := by
  refine ⟨?_, ?_, ?_⟩
  · simp [create_worker, if_pos hvalid, worker_refetch hwf]
  · simp [list_workers]
  · rw [List.take_of_length_le hcap]
    apply List.mem_map_of_mem
    apply List.mem_filter.mpr
    refine ⟨?_, workerQuery_self st p hlit⟩
    show newWorkerDoc st p ∈ st.workers ++ [newWorkerDoc st p]
    simp

/-- C5 witness: creating Sita on the empty store and then listing workers
with her service type and location returns her record. -/
theorem create_worker_then_list_roundtrip_witness :
    create_worker (some stEmpty) pWork =
      (Resp.ok (some (toPublicWorker (newWorkerDoc stEmpty pWork))), some (workerStore stEmpty pWork))
    ∧ toPublicWorker (newWorkerDoc stEmpty pWork) ∈
      (((workerStore stEmpty pWork).workers.filter
          (workerQuery (some pWork.service_type) (some pWork.location))).take 200).map toPublicWorker :=
  ⟨(create_worker_then_list_roundtrip stEmpty (by decide) pWork (by decide) (by decide)
      (by decide)).1,
   (create_worker_then_list_roundtrip stEmpty (by decide) pWork (by decide) (by decide)
      (by decide)).2.2⟩

/-- C7 counterexample: a `create_worker` request with rating 6 (outside
[0,5]) is indeed rejected with nothing inserted, but the failure is an
uncaught pydantic `ValidationError` — a 500 server error — not the 4xx
client error the claim states: `WorkerSchema(**payload.model_dump())`
runs inside the handler body, after FastAPI's request validation (whose
`CreateWorkerRequest` model carries no range constraints). -/
theorem create_worker_out_of_range_cex :
    create_worker (some stEmpty) pWorkBadRating =
      (Resp.serverError "ValidationError", some stEmpty) := by
  decide

/-- C7 (amended): a `create_worker` request whose rating lies outside
[0,5] or whose experience_years is negative is rejected by the
`schemas.Worker` field validation with no worker record inserted, but the
failure surfaces as an uncaught validation error — a 500 server error —
rather than a 4xx client error. -/
theorem create_worker_out_of_range_server_error (st : Store) (p : CreateWorkerRequest)
    (h : p.rating < 0 ∨ 5 < p.rating ∨ p.experience_years < 0) :
    create_worker (some st) p = (Resp.serverError "ValidationError", some st) := by
  have hnot : ¬(0 ≤ p.rating ∧ p.rating ≤ 5 ∧ 0 ≤ p.experience_years) := by
    rintro ⟨h1, h2, h3⟩
    rcases h with h | h | h
    · exact absurd h1 (not_le.mpr h)
    · exact absurd h2 (not_le.mpr h)
    · exact absurd h3 (not_le.mpr h)
  simp [create_worker, if_neg hnot]

/-- C7 witness: negative experience is likewise rejected as a server
error with nothing inserted. -/
theorem create_worker_out_of_range_server_error_witness :
    create_worker (some stEmpty) pWorkBadExp =
      (Resp.serverError "ValidationError", some stEmpty) :=
  create_worker_out_of_range_server_error stEmpty pWorkBadExp
    (Or.inr (Or.inr (by decide)))

/-- C1 counterexample: with well-formed ids that resolve to existing
records (`uAlice`, `wGuntur`) but `service_date = "not-a-date"` — a
string every CPython version's `fromisoformat` rejects with `ValueError`,
so instantiating the abstract runtime parser with `parseIsoDate` is
faithful here — `create_booking` neither returns a 400/404 nor
"otherwise inserts" a pending booking: the uncaught `ValueError`
surfaces as a 500 server error and the store is unchanged. -/
theorem create_booking_bad_date_cex :
    parseObjectId pBadDate.user_id = some 0
    ∧ parseObjectId pBadDate.worker_id = some 1
    ∧ stAW.users.find? (fun u => u.oid == 0) = some uAlice
    ∧ stAW.workers.find? (fun w => w.oid == 1) = some wGuntur
    ∧ parseIsoDate pBadDate.service_date = none
    ∧ create_booking parseIsoDate (some stAW) pBadDate =
      (Resp.serverError "ValueError", some stAW) :=
  ⟨rfl, rfl, rfl, rfl, rfl, rfl⟩

/-- C1 (amended): for every runtime date parser `fromiso` (the behavior
of `datetime.fromisoformat(·).date()`), `create_booking` fails with the
400 invalid-ids error when either id is malformed (not a 24-hex-digit
ObjectId string), fails with the 404 not-found error when both are
well-formed but either does not resolve, and otherwise — *provided the
runtime parses `service_date`* — inserts exactly one booking with status
"pending" and returns that created record. -/
theorem create_booking_spec (fromiso : String → Option Date) (st : Store)
    (hwf : st.wf = true) (p : CreateBookingRequest) :
    (parseObjectId p.user_id = none →
      create_booking fromiso (some st) p =
        (Resp.httpError 400 "Invalid user_id or worker_id", some st))
    ∧ (∀ uid, parseObjectId p.user_id = some uid → parseObjectId p.worker_id = none →
      create_booking fromiso (some st) p =
        (Resp.httpError 400 "Invalid user_id or worker_id", some st))
    ∧ (∀ uid wid, parseObjectId p.user_id = some uid → parseObjectId p.worker_id = some wid →
      (st.users.find? (fun u => u.oid == uid) = none
        ∨ st.workers.find? (fun w => w.oid == wid) = none) →
      create_booking fromiso (some st) p =
        (Resp.httpError 404 "User or Worker not found", some st))
    ∧ (∀ uid wid u w d, parseObjectId p.user_id = some uid →
      parseObjectId p.worker_id = some wid →
      st.users.find? (fun v => v.oid == uid) = some u →
      st.workers.find? (fun v => v.oid == wid) = some w →
      fromiso p.service_date = some d →
      create_booking fromiso (some st) p =
        (Resp.ok (some (toPublicBooking (newBookingDoc st p d))), some (bookingStore st p d))
      ∧ (newBookingDoc st p d).status = "pending"
      ∧ (bookingStore st p d).bookings = st.bookings ++ [newBookingDoc st p d]) := by
  refine ⟨?_, ?_, ?_, ?_⟩
  · intro h1
    simp [create_booking, h1]
  · intro uid h1 h2
    simp [create_booking, h1, h2]
  · intro uid wid h1 h2 h3
    rcases h3 with h3 | h3
    · simp [create_booking, h1, h2, h3]
    · rcases hu : st.users.find? (fun u => u.oid == uid) with _ | u <;>
        simp [create_booking, h1, h2, h3, hu]
  · intro uid wid u w d h1 h2 h3 h4 h5
    refine ⟨?_, rfl, rfl⟩
    simp [create_booking, h1, h2, h3, h4, h5, booking_refetch hwf]

/-- C1 witness: instantiating the runtime parser at the version-stable
`parseIsoDate`, with resolving ids and the date "2024-05-01" (accepted
with this value by every CPython) exactly one pending booking is
inserted and returned. -/
theorem create_booking_spec_witness :
    create_booking parseIsoDate (some stAW) pGoodBooking =
      (Resp.ok (some (toPublicBooking (newBookingDoc stAW pGoodBooking ⟨2024, 5, 1⟩))),
       some (bookingStore stAW pGoodBooking ⟨2024, 5, 1⟩))
    ∧ (newBookingDoc stAW pGoodBooking ⟨2024, 5, 1⟩).status = "pending"
    ∧ (bookingStore stAW pGoodBooking ⟨2024, 5, 1⟩).bookings =
      stAW.bookings ++ [newBookingDoc stAW pGoodBooking ⟨2024, 5, 1⟩] :=
  (create_booking_spec parseIsoDate stAW (by decide) pGoodBooking).2.2.2 0 1 uAlice wGuntur
    ⟨2024, 5, 1⟩ rfl rfl rfl rfl rfl

/-- C10: for every runtime date parser `fromiso` (the behavior of
`datetime.fromisoformat(·).date()`, which is CPython-version-dependent
beyond the date-only core), when both ids are well-formed and resolve to
existing records but the runtime rejects `service_date` (it is not a
valid ISO-format date for that runtime), the handler's `fromisoformat`
call raises an uncaught error — surfaced as a 500 server error, never as
the documented 400/404 client errors — and no booking document is
inserted (the store is unchanged). -/
theorem create_booking_invalid_date_uncaught (fromiso : String → Option Date)
    (st : Store) (p : CreateBookingRequest)
    (uid wid : Nat) (u : UserDoc) (w : WorkerDoc)
    (h1 : parseObjectId p.user_id = some uid) (h2 : parseObjectId p.worker_id = some wid)
    (h3 : st.users.find? (fun v => v.oid == uid) = some u)
    (h4 : st.workers.find? (fun v => v.oid == wid) = some w)
    (h5 : fromiso p.service_date = none) :
    create_booking fromiso (some st) p = (Resp.serverError "ValueError", some st)
    ∧ (∀ code detail, (create_booking fromiso (some st) p).1 ≠ Resp.httpError code detail) := by
  have hres : create_booking fromiso (some st) p = (Resp.serverError "ValueError", some st) := by
    simp [create_booking, h1, h2, h3, h4, h5]
  exact ⟨hres, by intro code detail; rw [hres]; simp⟩

/-- C10 witness: the concrete payload with `service_date = "not-a-date"`
— rejected with `ValueError` by every CPython version's `fromisoformat`,
so instantiating the abstract runtime parser with `parseIsoDate` is
faithful here — against the store holding `uAlice` and `wGuntur`. -/
theorem create_booking_invalid_date_uncaught_witness :
    create_booking parseIsoDate (some stAW) pBadDate =
      (Resp.serverError "ValueError", some stAW) :=
  (create_booking_invalid_date_uncaught parseIsoDate stAW pBadDate 0 1 uAlice wGuntur
    rfl rfl rfl rfl rfl).1

/-- C6 counterexample: `GET /bookings` with the explicit empty-string
`user_id` filter does not return "only bookings whose user_id equals the
given user_id": Python truthiness (`if user_id:`) drops the filter, so
the store's booking — whose `user_id` is not `""` — is returned. -/
theorem list_bookings_empty_filter_cex :
    truthy (some "") = false
    ∧ list_bookings (some stB) (some "") = (Resp.ok [toPublicBooking bkA], some stB)
    ∧ (toPublicBooking bkA).user_id ≠ "" :=
  ⟨rfl, rfl, by decide⟩

/-- C6 (amended): for every store and every *non-empty* `user_id` filter,
`list_bookings` returns exactly the bookings whose `user_id` equals the
filter, ordered newest-first by creation stamp and capped at 100; with no
filter (and likewise with the falsy empty-string filter) it returns all
bookings under the same order and cap. -/
theorem list_bookings_spec (st : Store) (uidq : String) (hq : uidq ≠ "") :
    list_bookings (some st) (some uidq) =
      (Resp.ok (((sortByCreatedDesc (st.bookings.filter (fun b => b.user_id == uidq))).take
          100).map toPublicBooking), some st)
    ∧ (∀ pb ∈ ((sortByCreatedDesc (st.bookings.filter (fun b => b.user_id == uidq))).take
          100).map toPublicBooking, pb.user_id = uidq)
    ∧ (((sortByCreatedDesc (st.bookings.filter (fun b => b.user_id == uidq))).take 100).map
        toPublicBooking).Pairwise (fun x y => y.created_at ≤ x.created_at)
    ∧ (((sortByCreatedDesc (st.bookings.filter (fun b => b.user_id == uidq))).take 100).map
        toPublicBooking).length ≤ 100
    ∧ list_bookings (some st) none =
      (Resp.ok (((sortByCreatedDesc st.bookings).take 100).map toPublicBooking), some st)
    ∧ (((sortByCreatedDesc st.bookings).take 100).map
        toPublicBooking).Pairwise (fun x y => y.created_at ≤ x.created_at)
    ∧ (((sortByCreatedDesc st.bookings).take 100).map toPublicBooking).length ≤ 100 := by
  have hfq : bookingQuery (some uidq) = fun b => b.user_id == uidq := by
    funext b
    simp [bookingQuery, truthy, hq]
  have hfn : bookingQuery none = fun _ => true := by
    funext b
    simp [bookingQuery, truthy]
  refine ⟨?_, ?_, ?_, ?_, ?_, ?_, ?_⟩
  · simp [list_bookings, hfq]
  · intro pb hpb
    rcases List.mem_map.mp hpb with ⟨b, hb, rfl⟩
    have hb' : b ∈ sortByCreatedDesc (st.bookings.filter (fun b => b.user_id == uidq)) :=
      List.take_subset 100 _ hb
    have hb'' := mem_sortByCreatedDesc.mp hb'
    have := List.of_mem_filter hb''
    simpa [toPublicBooking] using this
  · exact List.pairwise_map.mpr
      ((pairwise_sortByCreatedDesc _).sublist (List.take_sublist 100 _))
  · simp
  · simp [list_bookings, hfn]
  · exact List.pairwise_map.mpr
      ((pairwise_sortByCreatedDesc _).sublist (List.take_sublist 100 _))
  · simp

/-- C6 witness: filtering by Alice's id string on the concrete store
returns exactly her booking. -/
theorem list_bookings_spec_witness :
    list_bookings (some stB) (some "000000000000000000000000") =
      (Resp.ok (((sortByCreatedDesc (stB.bookings.filter
          (fun b => b.user_id == "000000000000000000000000"))).take 100).map toPublicBooking),
       some stB) :=
  (list_bookings_spec stB "000000000000000000000000" (by decide)).1
